import Mathlib

/-!
# Verification of the CAMELS US data-loading module (`camelsus.py`)

Shallow embedding of the three loader functions of the repository:

* `load_camels_us_attributes` — reads the attribute tables under
  `camels_attributes_v2.0`, joins them column-wise by gauge id, derives the
  zero-padded `huc` column from `huc_02`, and optionally filters to a
  requested basin list;
* `load_camels_us_forcings` — locates a basin's forcing file under
  `basin_mean_forcing/<forcings>`, reads the catchment area from the third
  header line, and builds a date-indexed table from the body;
* `load_camels_us_discharge` — locates a basin's streamflow file under
  `usgs_streamflow`, builds the date index, converts cfs to mm/day and
  replaces negative values with the missing-value marker.

The filesystem is modelled as explicit lists of files (directory existence
recorded where the code checks it).  Python exceptions become an `Err`
inductive carried by `Except`.  Real-valued data is modelled over `ℚ`
(the float constant `28316846.592` is the exact rational
`28316846592/1000`).  The textual tokenisation performed by
`pandas.read_csv` is not re-modelled: a file's body is carried as its
parsed rows, while header lines (which the code reads manually with
`readline`) are carried as raw strings.
-/

namespace CamelsUS

/-- Python exception taxonomy used by `camelsus.py`: `RuntimeError` (missing
attribute folder), `OSError` (missing forcing directory),
`FileNotFoundError` (no file matched a basin pattern) and `ValueError`
(failed validation, failed `int()` parse, failed date parse, and
`pd.concat` on an empty list). -/
inductive Err where
  | runtimeError (msg : String)
  | osError (msg : String)
  | fileNotFoundError (msg : String)
  | valueError (msg : String)
deriving DecidableEq, Repr

/-- A cell of an attribute table as parsed by `pd.read_csv`: pandas either
infers an integer (as it does for the `huc_02` column) or keeps text
(`gauge_id` is forced to `str` by the `dtype` argument). -/
inductive Cell where
  | num (n : ℤ)
  | txt (s : String)
deriving DecidableEq, Repr

/-- `str(x)` applied to one value of the joined `huc_02` column, as pandas
presents that value to line 48's `apply`.  The rendering depends on the
dtype of the *column* after the `pd.concat` outer join, recorded in
`floatCol`: when every joined row has a `huc_02` value the column keeps its
int64 dtype and an integer `n` renders as `str(n)` (decimal, matching
`toString` on `ℤ`); when the join left any row's `huc_02` missing the
column is upcast to float64 and the same `n` renders as `str(float(n))`,
which for the small integral values at hand appends `".0"`; a missing value
itself renders as `str(nan) = "nan"`.  A text cell (object dtype, outside
the documented layout) passes through unchanged. -/
def hucRender (floatCol : Bool) : Option Cell → String
  | some (.num n) =>
    match floatCol with
    | true => toString n ++ ".0"
    | false => toString n
  | some (.txt s) => s
  | none => "nan"

/-- Python `str.zfill(width)`: left-pad with `'0'` up to `width` characters,
keeping a leading sign in front of the padding; strings already at least
`width` long are returned unchanged. -/
def zfill (s : String) (width : ℕ) : String :=
  if width ≤ s.length then s
  else
    match s.data with
    | c :: rest =>
      if c = '-' ∨ c = '+' then
        String.mk (c :: (List.replicate (width - s.length) '0' ++ rest))
      else String.mk (List.replicate (width - s.length) '0') ++ s
    | [] => String.mk (List.replicate (width - s.length) '0') ++ s

/-- `p` is a prefix of `s` (character-list version of Python
`s.startswith(p)`; stated over `List Char` so that concrete instances
evaluate by kernel reduction). -/
def strStartsWith (s p : String) : Bool := p.data.isPrefixOf s.data

/-- `p` is a suffix of `s` (Python `s.endswith(p)`). -/
def strEndsWith (s p : String) : Bool := p.data.isSuffixOf s.data

/-- Strip leading and trailing whitespace from a character list (what
Python `int()` does to its argument before parsing). -/
def trimChars (l : List Char) : List Char :=
  ((l.dropWhile Char.isWhitespace).reverse.dropWhile Char.isWhitespace).reverse

/-- Decimal value of a list of digit characters (most significant first). -/
def decDigits (l : List Char) : ℕ :=
  l.foldl (fun a c => 10 * a + (c.toNat - '0'.toNat)) 0

/-- Python `int(s)` on a string: strips surrounding whitespace (including
the trailing newline kept by `readline`), accepts an optional sign followed
by at least one decimal digit, and raises `ValueError` otherwise (modelled
as `none`).  Underscore digit separators are not modelled. -/
def pyInt (s : String) : Option ℤ :=
  match trimChars s.data with
  | [] => none
  | '-' :: ds => if !ds.isEmpty && ds.all Char.isDigit then some (-(decDigits ds : ℤ)) else none
  | '+' :: ds => if !ds.isEmpty && ds.all Char.isDigit then some ((decDigits ds : ℤ)) else none
  | ds => if ds.all Char.isDigit then some ((decDigits ds : ℤ)) else none

/-- A calendar date with no time-of-day component, as produced by
`pd.to_datetime(..., format="%Y/%m/%d")` at midnight. -/
structure Date where
  year : ℤ
  month : ℤ
  day : ℤ
deriving DecidableEq, Repr

/-- Gregorian leap-year rule. -/
def isLeapYear (y : ℤ) : Bool :=
  (y % 4 == 0 && y % 100 != 0) || (y % 400 == 0)

/-- Number of days in a month of a given year. -/
def daysInMonth (y m : ℤ) : ℤ :=
  if m = 2 then (if isLeapYear y then 29 else 28)
  else if m = 4 ∨ m = 6 ∨ m = 9 ∨ m = 11 then 30
  else 31

/-- `pd.to_datetime(str(y) + "/" + str(m) + "/" + str(d), format="%Y/%m/%d")`:
succeeds exactly on valid calendar dates (year range as accepted by
`datetime`), raising `ValueError` otherwise. -/
def toDatetime (y m d : ℤ) : Except Err Date :=
  if 1 ≤ y ∧ y ≤ 9999 ∧ 1 ≤ m ∧ m ≤ 12 ∧ 1 ≤ d ∧ d ≤ daysInMonth y m
  then .ok ⟨y, m, d⟩
  else .error (.valueError "time data does not match format %Y/%m/%d")

/-- `df["date"] = pd.to_datetime(df.Year ... df.Mnth ... df.Day ...);
df = df.set_index("date")`: builds the composite date index row by row from
the `Year`/`Mnth`/`Day` columns (extracted by `ymd`), keeping the rows in
their original order; the whole call fails if any row's date is invalid.
`set_index` keeps all original columns (the row value is carried whole next
to its date). -/
def attachDates {α : Type} (ymd : α → ℤ × ℤ × ℤ) : List α → Except Err (List (Date × α))
  | [] => .ok []
  | r :: rs =>
    match toDatetime (ymd r).1 (ymd r).2.1 (ymd r).2.2 with
    | .error e => .error e
    | .ok d =>
      match attachDates ymd rs with
      | .error e => .error e
      | .ok tl => .ok ((d, r) :: tl)

/-! ## Attribute loader (`load_camels_us_attributes`) -/

/-- One data row of an attribute file: the `gauge_id` index value (read as
text to preserve leading zeros) and the remaining named cells. -/
structure AttrRow where
  gauge_id : String
  cells : List (String × Cell)
deriving DecidableEq, Repr

/-- One attribute file inside `camels_attributes_v2.0`: its file name and
its rows as parsed by `pd.read_csv(..., sep=';', header=0,
dtype={'gauge_id': str})` followed by `set_index('gauge_id')`. -/
structure AttrFile where
  name : String
  rows : List AttrRow
deriving DecidableEq, Repr

/-- `attributes_path.glob('camels_*.txt')`: the files whose name starts
with `camels_`, ends with `.txt`, and is long enough for both (a single
`*` matches any, possibly empty, run of characters). -/
def camelsGlob (files : List AttrFile) : List AttrFile :=
  files.filter (fun f =>
    strStartsWith f.name "camels_" && strEndsWith f.name ".txt"
      && decide (11 ≤ f.name.length))

/-- First-occurrence deduplication, keeping elements not yet `seen`. -/
def dedupIds (seen : List String) : List String → List String
  | [] => []
  | x :: xs => if x ∈ seen then dedupIds seen xs else x :: dedupIds (x :: seen) xs

/-- Gauge ids appearing in any of the tables, first occurrence first, each
id once (the row labels of the `pd.concat(dfs, axis=1)` outer join). -/
def allGaugeIds (tables : List (List AttrRow)) : List String :=
  dedupIds [] (tables.flatMap (fun t => t.map (·.gauge_id)))

/-- The cells a given gauge id collects across the tables in
`pd.concat(dfs, axis=1)`: each table contributes the cells of its rows with
that id, in table order. -/
def rowCells (tables : List (List AttrRow)) (id : String) : List (String × Cell) :=
  tables.flatMap (fun t => (t.filter (fun r => r.gauge_id == id)).flatMap (·.cells))

/-- The outer join computed by `pd.concat(dfs, axis=1)`: one row per gauge
id appearing in any table, holding all cells contributed for that id.
(When the per-file indexes differ, pandas may sort the union; the claims
below do not depend on the row order of the full table.) -/
def attrConcatTables (tables : List (List AttrRow)) : List AttrRow :=
  (allGaugeIds tables).map (fun id => ⟨id, rowCells tables id⟩)

/-- `pd.concat(dfs, axis=1)` including its failure mode: concatenating an
empty list of tables raises `ValueError("No objects to concatenate")`. -/
def pdConcat (tables : List (List AttrRow)) : Except Err (List AttrRow) :=
  if tables.isEmpty then .error (.valueError "No objects to concatenate")
  else .ok (attrConcatTables tables)

/-- Whether the outer join left the `huc_02` column with a missing value in
some row — exactly the condition under which pandas upcasts the joined
column from int64 to float64.  (If no row at all carries `huc_02` the real
program would fail with a `KeyError` on `df['huc_02']`, a layout violation
the model does not distinguish: such rows simply render as `"nan"`.) -/
def hucColumnHasMissing (df : List AttrRow) : Bool :=
  df.any (fun r => (r.cells.lookup "huc_02").isNone)

/-- Lines 47–49 of the source, per row:
`df['huc'] = df['huc_02'].apply(lambda x: str(x).zfill(2))` followed by
`df = df.drop('huc_02', axis=1)`.  `floatCol` is the dtype of the joined
`huc_02` column (`hucColumnHasMissing` of the whole table), which decides
how `str(x)` renders the value.  The new `huc` column is appended and the
`huc_02` cells are removed.  (Column assignment would overwrite an existing
`huc` column in place; position of such a pre-existing column is not
modelled, only its replacement.) -/
def hucDerive (floatCol : Bool) (r : AttrRow) : AttrRow :=
  ⟨r.gauge_id,
    (r.cells.filter (fun kv => kv.1 != "huc_02" && kv.1 != "huc"))
      ++ [("huc", Cell.txt (zfill (hucRender floatCol (r.cells.lookup "huc_02")) 2))]⟩

/-- One data row of a forcing file body, with its `Year`/`Mnth`/`Day`
columns and the remaining meteorological columns. -/
structure ForcingRow where
  Year : ℤ
  Mnth : ℤ
  Day : ℤ
  vals : List (String × ℚ)
deriving DecidableEq, Repr

/-- A file below `basin_mean_forcing/<product>`: its location, name, raw
text lines (the two metadata lines, the area line, and whatever follows)
and its body as parsed by `pd.read_csv(fp, sep='\s+')` from the stream
positioned after the third line. -/
structure ForcingFile where
  product : String
  subdir : List String
  name : String
  text : List String
  body : List ForcingRow
deriving DecidableEq, Repr

/-- One data row of a streamflow file, with the fixed column names
`['basin', 'Year', 'Mnth', 'Day', 'QObs', 'flag']` assigned by the code. -/
structure DischargeRow where
  basin : String
  Year : ℤ
  Mnth : ℤ
  Day : ℤ
  QObs : ℚ
  flag : String
deriving DecidableEq, Repr

/-- A file below `usgs_streamflow`: its location, name and parsed rows. -/
structure DischargeFile where
  subdir : List String
  name : String
  rows : List DischargeRow
deriving DecidableEq, Repr

/-- The on-disk state seen by the loaders, rooted at `data_dir`:
whether `camels_attributes_v2.0` exists and which files it holds; which
subdirectories of `basin_mean_forcing` exist and the forcing files below
them; and the files below `usgs_streamflow` (the code never checks that
this last directory exists, so the model records no flag for it — a
missing directory is the state with no discharge files). -/
structure FS where
  attrDirExists : Bool
  attrFiles : List AttrFile
  forcingDirs : List String
  forcingFiles : List ForcingFile
  disFiles : List DischargeFile
deriving DecidableEq, Repr

/-- The outer join of the discovered attribute files for a filesystem state
(the value of `df` after line 46 of the source). -/
def attrJoined (fs : FS) : List AttrRow :=
  attrConcatTables ((camelsGlob fs.attrFiles).map (·.rows))

/-- The joined, `huc`-derived attribute table for a filesystem state (the
value of `df` after line 49 of the source, before basin filtering). -/
def attrTable (fs : FS) : List AttrRow :=
  (attrJoined fs).map (hucDerive (hucColumnHasMissing (attrJoined fs)))

/-- `load_camels_us_attributes(data_dir, basins)` (lines 31–56). -/
def load_camels_us_attributes (fs : FS) (basins : List String) :
    Except Err (List AttrRow) :=
  if fs.attrDirExists then
    match pdConcat ((camelsGlob fs.attrFiles).map (·.rows)) with
    | .error e => .error e
    | .ok joined =>
      let df := joined.map (hucDerive (hucColumnHasMissing joined))
      if basins = [] then .ok df
      else if ∃ b ∈ basins, b ∉ df.map (·.gauge_id) then
        .error (.valueError "Some basins are missing static attributes.")
      else .ok (basins.flatMap (fun b => df.filter (fun r => r.gauge_id == b)))
  else .error (.runtimeError "Attribute folder not found")

/-! ## Forcing loader (`load_camels_us_forcings`) -/

/-- `forcing_path.glob(f'**/{basin}_*_forcing_leap.txt')`: all files of the
requested product whose name is `basin` + `_` + anything +
`_forcing_leap.txt` (the `**/` component also matches zero directories). -/
def forcingGlob (fs : FS) (forcings basin : String) : List ForcingFile :=
  fs.forcingFiles.filter (fun f =>
    f.product == forcings && strStartsWith f.name (basin ++ "_")
      && strEndsWith f.name "_forcing_leap.txt"
      && decide (basin.length + 18 ≤ f.name.length))

/-- Lines 91–95 of the source: two `readline()` calls whose results are
discarded, then `area = int(fp.readline())`.  A file with fewer than three
lines makes the third `readline` return the empty string, and `int('')`
raises `ValueError` just as any other unparsable third line does. -/
def readArea (text : List String) : Except Err ℤ :=
  match text with
  | _ :: _ :: l3 :: _ =>
    match pyInt l3 with
    | some n => .ok n
    | none => .error (.valueError ("invalid literal for int() with base 10: " ++ l3))
  | _ => .error (.valueError "invalid literal for int() with base 10: ")

/-- Year/month/day projection of a forcing row. -/
def forcingYmd (r : ForcingRow) : ℤ × ℤ × ℤ := (r.Year, r.Mnth, r.Day)

/-- Processing of the single located forcing file (lines 91–102): read the
area from the header, parse the body, attach the date index, and return the
indexed table together with the area. -/
def processForcingFile (f : ForcingFile) :
    Except Err (List (Date × ForcingRow) × ℤ) :=
  match readArea f.text with
  | .error e => .error e
  | .ok area =>
    match attachDates forcingYmd f.body with
    | .error e => .error e
    | .ok df => .ok (df, area)

/-- `load_camels_us_forcings(data_dir, basin, forcings)` (lines 81–102). -/
def load_camels_us_forcings (fs : FS) (basin forcings : String) :
    Except Err (List (Date × ForcingRow) × ℤ) :=
  if forcings ∈ fs.forcingDirs then
    match forcingGlob fs forcings basin with
    | [] => .error (.fileNotFoundError ("No file for Basin " ++ basin ++ " at []"))
    | f :: _ => processForcingFile f
  else .error (.osError ("basin_mean_forcing/" ++ forcings ++ " does not exist"))

/-! ## Discharge loader (`load_camels_us_discharge`) -/

/-- `discharge_path.glob(f'**/{basin}_streamflow_qc.txt')`: the searched
name contains no wildcard, so it is an exact match. -/
def dischargeGlob (fs : FS) (basin : String) : List DischargeFile :=
  fs.disFiles.filter (fun f => f.name == basin ++ "_streamflow_qc.txt")

/-- Year/month/day projection of a discharge row. -/
def dischargeYmd (r : DischargeRow) : ℤ × ℤ × ℤ := (r.Year, r.Mnth, r.Day)

/-- Line 138 of the source:
`df.QObs = 28316846.592 * df.QObs * 86400 / (area * 10**6)`. -/
def convertQ (area : ℤ) (q : ℚ) : ℚ :=
  28316846.592 * q * 86400 / ((area : ℚ) * 10 ^ 6)

/-- Modelled from the spec (the discharge conversion sentence of §4.3):
`QObs_mm_per_day = 28316846.592 * QObs_cfs * 86400 / (area_m2 * 1e6)`. -/
def spec_QObs_mm_per_day (area_m2 : ℤ) (QObs_cfs : ℚ) : ℚ :=
  28316846.592 * QObs_cfs * 86400 / ((area_m2 : ℚ) * 1000000)

/-- `load_camels_us_discharge(data_dir, basin, area)` (lines 125–142): find
the streamflow file, parse it, attach the date index, convert `QObs` to
mm/day and replace values that are negative *after* conversion
(`df.QObs[df.QObs<0] = np.nan`, line 140) by the missing-value marker,
returning the `QObs` series. -/
def load_camels_us_discharge (fs : FS) (basin : String) (area : ℤ) :
    Except Err (List (Date × Option ℚ)) :=
  match dischargeGlob fs basin with
  | [] => .error (.fileNotFoundError ("No file for Basin " ++ basin ++ " at []"))
  | f :: _ =>
    match attachDates dischargeYmd f.rows with
    | .error e => .error e
    | .ok ix =>
      .ok (ix.map (fun p =>
        (p.1, if convertQ area p.2.QObs < 0 then none
              else some (convertQ area p.2.QObs))))

/-! ## Concrete filesystem states used in the theorems below -/

/-- Attribute-folder state exhibiting a three-digit `huc_02` value. -/
def c3fs : FS :=
  { attrDirExists := true
    attrFiles := [⟨"camels_topo.txt", [⟨"01013500", [("huc_02", Cell.num 100)]⟩]⟩]
    forcingDirs := []
    forcingFiles := []
    disFiles := [] }

/-- Attribute-folder state where the outer join leaves `huc_02` missing for
one basin: `camels_clim.txt` covers two basins but `camels_name.txt`
carries `huc_02` only for the first, so pandas upcasts the joined column to
float64 and the present value renders as `"1.0"`. -/
def c3ffs : FS :=
  { attrDirExists := true
    attrFiles :=
      [⟨"camels_clim.txt", [⟨"01013500", [("p_mean", Cell.num 3)]⟩,
                            ⟨"01031500", [("p_mean", Cell.num 4)]⟩]⟩,
       ⟨"camels_name.txt", [⟨"01013500", [("huc_02", Cell.num 1)]⟩]⟩]
    forcingDirs := []
    forcingFiles := []
    disFiles := [] }

/-- Attribute-folder state with an ordinary single-digit `huc_02` value,
present in every row (int64 column). -/
def c3wfs : FS :=
  { attrDirExists := true
    attrFiles := [⟨"camels_name.txt", [⟨"01013500", [("huc_02", Cell.num 7)]⟩]⟩]
    forcingDirs := []
    forcingFiles := []
    disFiles := [] }

/-- The row `c3wfs` produces: `huc_02 = 7` becomes `huc = "07"`. -/
def c3wRow : AttrRow := ⟨"01013500", [("huc", Cell.txt "07")]⟩

/-- An attribute file with two basins sharing HUC region 1. -/
def wAttrFile : AttrFile :=
  ⟨"camels_name.txt",
   [⟨"01013500", [("huc_02", Cell.num 1), ("area", Cell.num 2252)]⟩,
    ⟨"01031500", [("huc_02", Cell.num 1)]⟩]⟩

/-- A daymet forcing file for basin `01013500` with area 831000000 m² on
its third header line and two days of data. -/
def wForcingFile : ForcingFile :=
  ⟨"daymet", ["01"], "01013500_lump_cida_forcing_leap.txt",
   [" latitude of gauge", " elevation of gauge", " 831000000",
    "Year Mnth Day prcp"],
   [⟨2000, 1, 1, [("prcp", 3)]⟩, ⟨2000, 1, 2, [("prcp", 0)]⟩]⟩

/-- A streamflow file for basin `01013500` with one negative (invalid) and
one positive observation. -/
def wDisFile : DischargeFile :=
  ⟨["01"], "01013500_streamflow_qc.txt",
   [⟨"01013500", 2000, 1, 1, -1, "A"⟩, ⟨"01013500", 2000, 1, 2, 300, "A"⟩]⟩

/-- A complete CAMELS-like state holding all of the above. -/
def wFS : FS :=
  { attrDirExists := true
    attrFiles := [wAttrFile]
    forcingDirs := ["daymet"]
    forcingFiles := [wForcingFile]
    disFiles := [wDisFile] }

/-- A state whose attribute folder exists but is empty, with no forcing
and no discharge tree at all. -/
def wEmptyFS : FS := ⟨true, [], [], [], []⟩

/-- The date-indexed table `wForcingFile` parses to. -/
def wForcingOut : List (Date × ForcingRow) :=
  [(⟨2000, 1, 1⟩, ⟨2000, 1, 1, [("prcp", 3)]⟩),
   (⟨2000, 1, 2⟩, ⟨2000, 1, 2, [("prcp", 0)]⟩)]

/-- The date-indexed rows `wDisFile` parses to. -/
def wIx : List (Date × DischargeRow) :=
  [(⟨2000, 1, 1⟩, ⟨"01013500", 2000, 1, 1, -1, "A"⟩),
   (⟨2000, 1, 2⟩, ⟨"01013500", 2000, 1, 2, 300, "A"⟩)]

/-- The discharge series `wDisFile` loads to with area 831000000: the
negative observation is masked, the positive one converted. -/
def wOut : List (Date × Option ℚ) :=
  [(⟨2000, 1, 1⟩, none), (⟨2000, 1, 2⟩, some (convertQ 831000000 300))]

/-! ## Helper lemmas -/

/-- A successful `attachDates` keeps every row, in order, next to the date
built from that row's own year/month/day columns. -/
theorem attachDates_ok {α : Type} (ymd : α → ℤ × ℤ × ℤ) (rows : List α)
    (out : List (Date × α)) (h : attachDates ymd rows = .ok out) :
    out.map Prod.snd = rows ∧
    out.map (fun p => toDatetime (ymd p.2).1 (ymd p.2).2.1 (ymd p.2).2.2) =
      out.map (fun p => Except.ok p.1) := by
  induction rows generalizing out with
  | nil =>
    unfold attachDates at h
    cases h
    simp
  | cons r rs ih =>
    unfold attachDates at h
    cases hd : toDatetime (ymd r).1 (ymd r).2.1 (ymd r).2.2 with
    | error e => rw [hd] at h; cases h
    | ok d =>
      rw [hd] at h
      cases ht : attachDates ymd rs with
      | error e => rw [ht] at h; cases h
      | ok tl =>
        rw [ht] at h
        cases h
        obtain ⟨ih1, ih2⟩ := ih tl ht
        refine ⟨?_, ?_⟩
        · simp [ih1]
        · simp only [List.map_cons, ih2, hd]

/-- With a positive catchment area, a converted discharge value is negative
exactly when the raw cfs value was. -/
theorem convertQ_neg_iff (area : ℤ) (q : ℚ) (ha : 0 < area) :
    convertQ area q < 0 ↔ q < 0 := by
  have h1 : (0 : ℚ) < (area : ℚ) := by exact_mod_cast ha
  have hA : (0 : ℚ) < (area : ℚ) * 10 ^ 6 := mul_pos h1 (by norm_num)
  unfold convertQ
  rw [div_lt_iff₀ hA, zero_mul]
  have hrw : (28316846.592 : ℚ) * q * 86400 = (28316846.592 * 86400) * q := by
    ring
  rw [hrw]
  constructor
  · intro hx
    by_contra hq
    push_neg at hq
    exact absurd hx (not_lt.mpr (mul_nonneg (by norm_num) hq))
  · intro hq
    exact mul_neg_of_pos_of_neg (by norm_num) hq

/-- `zfill` pads to exactly the requested width when the string is shorter,
and leaves longer strings alone. -/
theorem zfill_length (s : String) (w : ℕ) :
    (zfill s w).length = max w s.length := by
  unfold zfill
  have hs : s.length = s.data.length := rfl
  by_cases hw : w ≤ s.length
  · rw [if_pos hw]
    omega
  · rw [if_neg hw]
    cases hdata : s.data with
    | nil =>
      have h0 : s.length = 0 := by rw [hs, hdata]; rfl
      rw [String.length_append, String.length_mk, List.length_replicate]
      omega
    | cons c rest =>
      have hlen : s.length = 1 + rest.length := by
        rw [hs, hdata]
        simp [Nat.add_comm]
      have hred : (match c :: rest with
          | c :: rest =>
            if c = '-' ∨ c = '+' then
              String.mk (c :: (List.replicate (w - s.length) '0' ++ rest))
            else String.mk (List.replicate (w - s.length) '0') ++ s
          | [] => String.mk (List.replicate (w - s.length) '0') ++ s) =
          (if c = '-' ∨ c = '+' then
            String.mk (c :: (List.replicate (w - s.length) '0' ++ rest))
          else String.mk (List.replicate (w - s.length) '0') ++ s) := rfl
      rw [hred]
      by_cases hc : c = '-' ∨ c = '+'
      · rw [if_pos hc, String.length_mk]
        simp only [List.length_cons, List.length_append, List.length_replicate]
        omega
      · rw [if_neg hc, String.length_append, String.length_mk,
          List.length_replicate]
        omega

/-- Dropping `huc_02` really removes it from every row's cells. -/
theorem lookup_huc02_none (cells : List (String × Cell)) (v : Cell) :
    ((cells.filter (fun kv => kv.1 != "huc_02" && kv.1 != "huc"))
      ++ [("huc", v)]).lookup "huc_02" = none := by
  induction cells with
  | nil => rfl
  | cons kv rest ih =>
    obtain ⟨k, cv⟩ := kv
    rw [List.filter_cons]
    by_cases h1 : ((k, cv).1 != "huc_02" && (k, cv).1 != "huc") = true
    · rw [if_pos h1]
      simp only [bne_iff_ne, Bool.and_eq_true, ne_eq] at h1
      have hne : ("huc_02" == k) = false := by
        exact beq_eq_false_iff_ne.mpr (fun hh => h1.1 hh.symm)
      simp only [List.cons_append, List.lookup, hne]
      exact ih
    · rw [if_neg h1]
      exact ih

/-- The appended `huc` cell is what a lookup of `huc` finds. -/
theorem lookup_huc_some (cells : List (String × Cell)) (v : Cell) :
    ((cells.filter (fun kv => kv.1 != "huc_02" && kv.1 != "huc"))
      ++ [("huc", v)]).lookup "huc" = some v := by
  induction cells with
  | nil => rfl
  | cons kv rest ih =>
    obtain ⟨k, cv⟩ := kv
    rw [List.filter_cons]
    by_cases h1 : ((k, cv).1 != "huc_02" && (k, cv).1 != "huc") = true
    · rw [if_pos h1]
      simp only [bne_iff_ne, Bool.and_eq_true, ne_eq] at h1
      have hne : ("huc" == k) = false := by
        exact beq_eq_false_iff_ne.mpr (fun hh => h1.2 hh.symm)
      simp only [List.cons_append, List.lookup, hne]
      exact ih
    · rw [if_neg h1]
      exact ih

/-- `hucDerive` keeps the row's gauge id. -/
theorem hucDerive_gauge_id (b : Bool) (r : AttrRow) :
    (hucDerive b r).gauge_id = r.gauge_id :=
  rfl

/-- A decimal numeral for `0 ≤ n < 100` has one or two characters. -/
theorem toString_int_length (n : ℤ) (h0 : 0 ≤ n) (h1 : n < 100) :
    1 ≤ (toString n).length ∧ (toString n).length ≤ 2 := by
  interval_cases n <;> exact ⟨by decide, by decide⟩

/-- In a table with pairwise distinct gauge ids, filtering for a present id
returns exactly the one row carrying it. -/
theorem filter_gauge_eq (df : List AttrRow) (b : String)
    (hnd : (df.map (·.gauge_id)).Nodup) (hb : b ∈ df.map (·.gauge_id)) :
    (df.filter (fun r => r.gauge_id == b)).map (·.gauge_id) = [b] := by
  induction df with
  | nil => simp at hb
  | cons r rs ih =>
    simp only [List.map_cons, List.nodup_cons] at hnd
    by_cases hr : r.gauge_id = b
    · have hnil : rs.filter (fun x => x.gauge_id == b) = [] := by
        rw [List.filter_eq_nil_iff]
        intro x hx hxb
        simp only [beq_iff_eq] at hxb
        apply hnd.1
        rw [hr, ← hxb]
        exact List.mem_map_of_mem (·.gauge_id) hx
      rw [List.filter_cons]
      have : (r.gauge_id == b) = true := by simp [hr]
      rw [if_pos this, hnil]
      simp [hr]
    · have hb2 : b ∈ rs.map (·.gauge_id) := by
        rcases List.mem_cons.mp hb with h | h
        · exact absurd h.symm hr
        · exact h
      rw [List.filter_cons]
      have : ¬((r.gauge_id == b) = true) := by simp [hr]
      rw [if_neg this]
      exact ih hnd.2 hb2

/-- `df.loc[basins]` with a duplicate-free index returns exactly one row per
requested basin, in the requested order. -/
theorem loc_map_gauge (df : List AttrRow) (basins : List String)
    (hnd : (df.map (·.gauge_id)).Nodup)
    (hall : ∀ b ∈ basins, b ∈ df.map (·.gauge_id)) :
    (basins.flatMap (fun b => df.filter (fun r => r.gauge_id == b))).map
      (·.gauge_id) = basins := by
  induction basins with
  | nil => simp
  | cons b bs ih =>
    rw [List.flatMap_cons, List.map_append]
    rw [filter_gauge_eq df b hnd (hall b (List.mem_cons_self b bs))]
    rw [ih (fun x hx => hall x (List.mem_cons_of_mem b hx))]
    rfl

/-- With the attribute directory present and at least one matching file, the
attribute loader reduces to filtering the joined, `huc`-derived table. -/
theorem load_attr_unfold (fs : FS) (basins : List String)
    (h1 : fs.attrDirExists = true) (h2 : camelsGlob fs.attrFiles ≠ []) :
    load_camels_us_attributes fs basins =
      (if basins = [] then .ok (attrTable fs)
       else if ∃ b ∈ basins, b ∉ (attrTable fs).map (·.gauge_id) then
         .error (.valueError "Some basins are missing static attributes.")
       else .ok (basins.flatMap
         (fun b => (attrTable fs).filter (fun r => r.gauge_id == b)))) := by
  unfold load_camels_us_attributes
  rw [h1]
  have hne : ((camelsGlob fs.attrFiles).map (·.rows)) ≠ [] := by
    intro hcontra
    exact h2 (List.map_eq_nil_iff.mp hcontra)
  have hconcat : pdConcat ((camelsGlob fs.attrFiles).map (·.rows)) =
      .ok (attrConcatTables ((camelsGlob fs.attrFiles).map (·.rows))) := by
    unfold pdConcat
    rw [if_neg]
    simp [List.isEmpty_iff, hne]
  rw [hconcat]
  rfl

/-! ## Claim theorems -/

/-- C1: `load_camels_us_discharge` converts cubic feet per second to
millimetres per day by
`QObs_mm_per_day = 28316846.592 * QObs_cfs * 86400 / (area_m2 * 1e6)` (the
code's line 138 agrees with the spec's formula for every area and every
discharge value); at `area = 831000000`, `QObs = 300` the result is exactly
the rational `11946169656 / 13525390625`, which is within `1e-6` (here:
distance `0`) of the formula's value; the conversion is a pure function of
`(area, QObs)`, hence deterministic. -/
theorem camels_C1_discharge_conversion (area : ℤ) (q : ℚ) :
    convertQ area q = spec_QObs_mm_per_day area q ∧
    convertQ 831000000 300 = 11946169656 / 13525390625 ∧
    |convertQ 831000000 300 -
      28316846.592 * 300 * 86400 / ((831000000 : ℚ) * 1000000)| <
      1 / 1000000 := by
  refine ⟨?_, ?_, ?_⟩
  · unfold convertQ spec_QObs_mm_per_day
    norm_num
  · unfold convertQ
    norm_num
  · unfold convertQ
    norm_num

/-- C2: for a positive catchment area, the discharge series returned by
`load_camels_us_discharge` replaces exactly the positions whose input
`QObs` value is negative by the missing-value marker (`none`), keeps every
other position as the converted value, and has the same length and the same
per-row date index as the parsed input table (flagged rows included, none
dropped). -/
theorem camels_C2_negative_discharge_masked (fs : FS) (basin : String)
    (area : ℤ) (g : DischargeFile) (out : List (Date × Option ℚ))
    (ha : 0 < area)
    (hg : (dischargeGlob fs basin).head? = some g)
    (h : load_camels_us_discharge fs basin area = .ok out) :
    ∃ ix, attachDates dischargeYmd g.rows = .ok ix ∧
      ix.map Prod.snd = g.rows ∧
      out.map Prod.fst = ix.map Prod.fst ∧
      out.length = g.rows.length ∧
      out = ix.map (fun p =>
        (p.1, if p.2.QObs < 0 then none
              else some (convertQ area p.2.QObs))) := by
  unfold load_camels_us_discharge at h
  split at h
  · cases h
  · rename_i f rest hglob
    rw [hglob] at hg
    simp only [List.head?, Option.some.injEq] at hg
    subst hg
    split at h
    · cases h
    · rename_i ix hat
      cases h
      obtain ⟨h1, _⟩ := attachDates_ok dischargeYmd f.rows ix hat
      refine ⟨ix, hat, h1, ?_, ?_, ?_⟩
      · simp [List.map_map]
      · rw [List.length_map, ← h1, List.length_map]
      · apply List.map_congr_left
        intro p hp
        simp only [convertQ_neg_iff area p.2.QObs ha]

/-- C3 (counterexample): the claimed "exactly 2 characters for every row"
is false on the code in two ways.  With an input row whose `huc_02` value
is `100`, `load_camels_us_attributes` returns the `huc` string `"100"` of
length 3 — `str(x).zfill(2)` only pads up to width 2, it never truncates.
And when the outer join leaves `huc_02` missing for some basin (`c3ffs`),
pandas upcasts the column to float64, so even the in-range value `1`
renders as `"1.0"` (length 3) and the missing one as `"nan"`. -/
theorem camels_C3_counterexample :
    (load_camels_us_attributes c3fs [] =
       .ok [⟨"01013500", [("huc", Cell.txt "100")]⟩] ∧
     ¬(("100" : String).length = 2)) ∧
    (load_camels_us_attributes c3ffs [] =
       .ok [⟨"01013500", [("p_mean", Cell.num 3), ("huc", Cell.txt "1.0")]⟩,
            ⟨"01031500", [("p_mean", Cell.num 4), ("huc", Cell.txt "nan")]⟩] ∧
     ¬(("1.0" : String).length = 2)) := by
  exact ⟨⟨rfl, by decide⟩, ⟨rfl, by decide⟩⟩

/-- C3 (amended): every row of the table returned by
`load_camels_us_attributes` is derived from a row of the outer join; its
`huc` value is `str(huc_02).zfill(2)` where `str` renders the value under
the joined column's dtype — so the value always has at least two
characters, and the original `huc_02` column is dropped from the row.  It
has exactly two characters precisely in the intended situation: every
joined row carries a `huc_02` value (the column keeps its int64 dtype) and
the numeral `n` satisfies `0 ≤ n < 100`; if instead the join left any
`huc_02` missing, the float64 rendering's `".0"` suffix makes the value of
such an `n` three or four characters, never two. -/
theorem camels_C3_huc_derivation (fs : FS) (t : List AttrRow) (r : AttrRow)
    (h : load_camels_us_attributes fs [] = .ok t) (hr : r ∈ t) :
    ∃ p, p ∈ attrJoined fs ∧
      r = hucDerive (hucColumnHasMissing (attrJoined fs)) p ∧
      r.cells.lookup "huc" = some (Cell.txt (zfill
        (hucRender (hucColumnHasMissing (attrJoined fs))
          (p.cells.lookup "huc_02")) 2)) ∧
      r.cells.lookup "huc_02" = none ∧
      2 ≤ (zfill (hucRender (hucColumnHasMissing (attrJoined fs))
        (p.cells.lookup "huc_02")) 2).length ∧
      (∀ n : ℤ, hucColumnHasMissing (attrJoined fs) = false →
        p.cells.lookup "huc_02" = some (Cell.num n) → 0 ≤ n → n < 100 →
        ∃ s, r.cells.lookup "huc" = some (Cell.txt s) ∧ s.length = 2) ∧
      (∀ n : ℤ, hucColumnHasMissing (attrJoined fs) = true →
        p.cells.lookup "huc_02" = some (Cell.num n) → 0 ≤ n → n < 100 →
        ∃ s, r.cells.lookup "huc" = some (Cell.txt s) ∧ s.length ≠ 2) := by
  unfold load_camels_us_attributes at h
  cases hdir : fs.attrDirExists with
  | false => rw [hdir] at h; cases h
  | true =>
    rw [hdir] at h
    simp only [if_true] at h
    cases hcc : pdConcat ((camelsGlob fs.attrFiles).map (·.rows)) with
    | error e => rw [hcc] at h; cases h
    | ok joined =>
      rw [hcc] at h
      have h2 : Except.ok (joined.map (hucDerive (hucColumnHasMissing joined))) =
          Except.ok t := h
      clear h
      cases h2
      have hjoined : joined = attrJoined fs := by
        unfold pdConcat at hcc
        by_cases he : ((camelsGlob fs.attrFiles).map (·.rows)).isEmpty = true
        · rw [if_pos he] at hcc; cases hcc
        · rw [if_neg he] at hcc; cases hcc; rfl
      subst hjoined
      obtain ⟨p, hp, hpr⟩ := List.mem_map.mp hr
      have hlook : r.cells.lookup "huc" = some (Cell.txt (zfill
          (hucRender (hucColumnHasMissing (attrJoined fs))
            (p.cells.lookup "huc_02")) 2)) := by
        rw [← hpr]
        exact lookup_huc_some p.cells _
      refine ⟨p, hp, hpr.symm, hlook, ?_, ?_, ?_, ?_⟩
      · rw [← hpr]
        exact lookup_huc02_none p.cells _
      · rw [zfill_length]
        exact le_max_left 2 _
      · intro n hflag hn h0 h100
        refine ⟨zfill (toString n) 2, ?_, ?_⟩
        · rw [hlook, hflag, hn]
          rfl
        · rw [zfill_length]
          have hb := toString_int_length n h0 h100
          omega
      · intro n hflag hn h0 h100
        refine ⟨zfill (toString n ++ ".0") 2, ?_, ?_⟩
        · rw [hlook, hflag, hn]
          rfl
        · rw [zfill_length, String.length_append]
          have hb := toString_int_length n h0 h100
          have hdot : (".0" : String).length = 2 := rfl
          omega

/-- C4: with a non-empty basin filter, `load_camels_us_attributes` raises
the "missing static attributes" validation error — and returns nothing —
whenever some requested basin is absent from the joined table; when every
requested basin is present (and the table's gauge ids are, as in CAMELS,
pairwise distinct), it returns exactly one row per requested basin, in the
requested order, each row taken from the joined table. -/
theorem camels_C4_basin_filter (fs : FS) (basins : List String)
    (h0 : basins ≠ []) (h1 : fs.attrDirExists = true)
    (h2 : camelsGlob fs.attrFiles ≠ []) :
    ((∃ b ∈ basins, b ∉ (attrTable fs).map (·.gauge_id)) →
       load_camels_us_attributes fs basins =
         .error (.valueError "Some basins are missing static attributes.") ∧
       ∀ t, load_camels_us_attributes fs basins ≠ .ok t) ∧
    ((∀ b ∈ basins, b ∈ (attrTable fs).map (·.gauge_id)) →
       ((attrTable fs).map (·.gauge_id)).Nodup →
       ∃ t, load_camels_us_attributes fs basins = .ok t ∧
         t.map (·.gauge_id) = basins ∧ ∀ r ∈ t, r ∈ attrTable fs) := by
  have hu := load_attr_unfold fs basins h1 h2
  rw [if_neg h0] at hu
  constructor
  · intro hmiss
    rw [if_pos hmiss] at hu
    refine ⟨hu, ?_⟩
    intro t hcontra
    rw [hu] at hcontra
    cases hcontra
  · intro hall hnd
    have hnot : ¬ ∃ b ∈ basins, b ∉ (attrTable fs).map (·.gauge_id) := by
      push_neg
      exact hall
    rw [if_neg hnot] at hu
    refine ⟨_, hu, loc_map_gauge (attrTable fs) basins hnd hall, ?_⟩
    intro r hr
    obtain ⟨b, hb, hrb⟩ := List.mem_flatMap.mp hr
    exact (List.mem_filter.mp hrb).1

/-- C9: the default empty basin list is no filter at all: the loader
performs no membership validation and returns the full joined table, whose
rows are exactly the gauge ids discovered across all attribute files (one
row per discovered id — so the result is empty only when no basin at all
was discovered). -/
theorem camels_C9_empty_filter (fs : FS)
    (h1 : fs.attrDirExists = true) (h2 : camelsGlob fs.attrFiles ≠ []) :
    load_camels_us_attributes fs [] = .ok (attrTable fs) ∧
    (attrTable fs).map (·.gauge_id) =
      allGaugeIds ((camelsGlob fs.attrFiles).map (·.rows)) ∧
    (attrTable fs).length =
      (allGaugeIds ((camelsGlob fs.attrFiles).map (·.rows))).length := by
  refine ⟨?_, ?_, ?_⟩
  · rw [load_attr_unfold fs [] h1 h2, if_pos rfl]
  · unfold attrTable attrJoined attrConcatTables
    rw [List.map_map, List.map_map]
    exact List.map_id _
  · unfold attrTable attrJoined attrConcatTables
    rw [List.length_map, List.length_map]

/-- C10: an existing attribute folder containing no `camels_*.txt` file
does not produce an empty table: `pd.concat` on the empty list of parsed
tables raises `ValueError("No objects to concatenate")`, an error distinct
from the spec's configuration (`RuntimeError`), not-found
(`FileNotFoundError`) and validation ("missing static attributes") errors,
and no table is returned. -/
theorem camels_C10_no_attr_files (fs : FS) (basins : List String)
    (h1 : fs.attrDirExists = true) (h2 : camelsGlob fs.attrFiles = []) :
    load_camels_us_attributes fs basins =
      .error (.valueError "No objects to concatenate") ∧
    (∀ t, load_camels_us_attributes fs basins ≠ .ok t) ∧
    (∀ m, (Err.valueError "No objects to concatenate") ≠ .runtimeError m) ∧
    (∀ m, (Err.valueError "No objects to concatenate") ≠ .fileNotFoundError m) ∧
    (Err.valueError "No objects to concatenate") ≠
      .valueError "Some basins are missing static attributes." := by
  have hload : load_camels_us_attributes fs basins =
      .error (.valueError "No objects to concatenate") := by
    unfold load_camels_us_attributes
    rw [h1]
    have hc : pdConcat ((camelsGlob fs.attrFiles).map (·.rows)) =
        .error (.valueError "No objects to concatenate") := by
      unfold pdConcat
      rw [h2]
      rfl
    rw [if_pos rfl, hc]
  refine ⟨hload, ?_, ?_, ?_, ?_⟩
  · intro t hc
    rw [hload] at hc
    cases hc
  · intro m hc
    cases hc
  · intro m hc
    cases hc
  · intro hc
    injection hc with hmsg
    exact absurd hmsg (by decide)

/-- C7: the discharge loader checks no directory: any state in which no
file matches `<basin>_streamflow_qc.txt` — whether because the
`usgs_streamflow` tree is missing entirely or because the basin has no
file — produces one and the same `FileNotFoundError`, and the loader never
returns a series (empty or otherwise) in that situation. -/
theorem camels_C7_discharge_not_found (fs fs2 : FS) (basin : String)
    (area area2 : ℤ)
    (h : dischargeGlob fs basin = []) (h2 : dischargeGlob fs2 basin = []) :
    load_camels_us_discharge fs basin area =
      .error (.fileNotFoundError ("No file for Basin " ++ basin ++ " at []")) ∧
    load_camels_us_discharge fs basin area =
      load_camels_us_discharge fs2 basin area2 ∧
    ∀ ser, load_camels_us_discharge fs basin area ≠ .ok ser := by
  have he : ∀ (g : FS) (a : ℤ), dischargeGlob g basin = [] →
      load_camels_us_discharge g basin a =
        .error (.fileNotFoundError ("No file for Basin " ++ basin ++ " at []")) := by
    intro g a hga
    unfold load_camels_us_discharge
    rw [hga]
  refine ⟨he fs area h, ?_, ?_⟩
  · rw [he fs area h, he fs2 area2 h2]
  · intro ser hc
    rw [he fs area h] at hc
    cases hc

/-- C8: the forcing loader raises `OSError` when the
`basin_mean_forcing/<forcings>` directory does not exist (checked before
any search), raises `FileNotFoundError` when the recursive search matches
no `<basin>_*_forcing_leap.txt` file, and otherwise processes exactly the
first match found, ignoring any further matches. -/
theorem camels_C8_forcing_errors (fs : FS) (basin forcings : String) :
    (forcings ∉ fs.forcingDirs →
       load_camels_us_forcings fs basin forcings =
         .error (.osError ("basin_mean_forcing/" ++ forcings ++ " does not exist"))) ∧
    (forcings ∈ fs.forcingDirs → forcingGlob fs forcings basin = [] →
       load_camels_us_forcings fs basin forcings =
         .error (.fileNotFoundError ("No file for Basin " ++ basin ++ " at []"))) ∧
    (∀ f rest, forcings ∈ fs.forcingDirs →
       forcingGlob fs forcings basin = f :: rest →
       load_camels_us_forcings fs basin forcings = processForcingFile f) := by
  refine ⟨?_, ?_, ?_⟩
  · intro hd
    unfold load_camels_us_forcings
    rw [if_neg hd]
  · intro hd hg
    unfold load_camels_us_forcings
    rw [if_pos hd, hg]
  · intro f rest hd hg
    unfold load_camels_us_forcings
    rw [if_pos hd, hg]

/-- C5: for the forcing file the loader locates, the returned catchment
area is exactly the integer on the file's third line (here: any third line
`l3` that `int()` parses as `n`), with the first two lines read and
discarded — they do not influence the result — so whenever the load
succeeds, the area component equals that integer verbatim. -/
theorem camels_C5_area_from_third_line (fs : FS) (basin forcings : String)
    (f : ForcingFile) (l1 l2 l3 : String) (rest : List String) (n : ℤ)
    (hm : (forcingGlob fs forcings basin).head? = some f)
    (ht : f.text = l1 :: l2 :: l3 :: rest)
    (hn : pyInt l3 = some n) :
    readArea f.text = .ok n ∧
    ∀ df a, load_camels_us_forcings fs basin forcings = .ok (df, a) → a = n := by
  have hra : readArea f.text = .ok n := by
    rw [ht]
    simp only [readArea, hn]
  refine ⟨hra, ?_⟩
  intro df a hload
  unfold load_camels_us_forcings at hload
  by_cases hd : forcings ∈ fs.forcingDirs
  · rw [if_pos hd] at hload
    split at hload
    · cases hload
    · rename_i f0 rest0 hglob
      rw [hglob] at hm
      simp only [List.head?, Option.some.injEq] at hm
      subst hm
      unfold processForcingFile at hload
      split at hload
      · rename_i e hre
        rw [hra] at hre
        cases hre
      · rename_i area0 hre
        have harea : area0 = n := by
          rw [hra] at hre
          cases hre
          rfl
        split at hload
        · cases hload
        · rename_i ix hat
          cases hload
          exact harea
  · rw [if_neg hd] at hload
    cases hload

/-- C6: for both loaders, the returned date index is, row by row in the
original row order, the calendar date built from that row's `Year`, `Mnth`
and `Day` columns (no time-of-day is modelled in `Date`); the forcing
result keeps every original row — `Year`/`Mnth`/`Day` columns included —
next to its date, and the discharge series keeps one entry per input row in
the same order. -/
theorem camels_C6_date_index (fs : FS) (basin forcings : String) (area : ℤ)
    (f : ForcingFile) (g : DischargeFile)
    (df : List (Date × ForcingRow)) (a : ℤ) (ser : List (Date × Option ℚ))
    (hf : (forcingGlob fs forcings basin).head? = some f)
    (h1 : load_camels_us_forcings fs basin forcings = .ok (df, a))
    (hg : (dischargeGlob fs basin).head? = some g)
    (h2 : load_camels_us_discharge fs basin area = .ok ser) :
    df.map Prod.snd = f.body ∧
    df.map (fun p => toDatetime p.2.Year p.2.Mnth p.2.Day) =
      df.map (fun p => Except.ok p.1) ∧
    ∃ ix, attachDates dischargeYmd g.rows = .ok ix ∧
      ix.map Prod.snd = g.rows ∧
      ser.map Prod.fst = ix.map Prod.fst ∧
      ser.length = g.rows.length ∧
      ix.map (fun p => toDatetime p.2.Year p.2.Mnth p.2.Day) =
        ix.map (fun p => Except.ok p.1) := by
  have hforcing : df.map Prod.snd = f.body ∧
      df.map (fun p => toDatetime p.2.Year p.2.Mnth p.2.Day) =
        df.map (fun p => Except.ok p.1) := by
    unfold load_camels_us_forcings at h1
    by_cases hd : forcings ∈ fs.forcingDirs
    · rw [if_pos hd] at h1
      split at h1
      · cases h1
      · rename_i f0 rest0 hglob
        rw [hglob] at hf
        simp only [List.head?, Option.some.injEq] at hf
        subst hf
        unfold processForcingFile at h1
        split at h1
        · cases h1
        · rename_i area0 hre
          split at h1
          · cases h1
          · rename_i ix hat
            cases h1
            exact attachDates_ok forcingYmd _ _ hat
    · rw [if_neg hd] at h1
      cases h1
  refine ⟨hforcing.1, hforcing.2, ?_⟩
  unfold load_camels_us_discharge at h2
  split at h2
  · cases h2
  · rename_i g0 rest0 hglob
    rw [hglob] at hg
    simp only [List.head?, Option.some.injEq] at hg
    subst hg
    split at h2
    · cases h2
    · rename_i ix hat
      cases h2
      obtain ⟨e1, e2⟩ := attachDates_ok dischargeYmd _ _ hat
      refine ⟨ix, hat, e1, ?_, ?_, e2⟩
      · simp [List.map_map]
      · rw [List.length_map, ← e1, List.length_map]

/-- Concrete evaluation of the discharge loader on `wFS`: the negative
observation converts to a negative value and is masked, the positive one is
kept converted (the two sign conditions are the only facts the kernel
cannot evaluate, `ℚ` arithmetic being irreducible). -/
theorem wDischargeLoad :
    load_camels_us_discharge wFS "01013500" 831000000 = .ok wOut := by
  have hneg : convertQ 831000000 (-1) < 0 := by
    unfold convertQ
    norm_num
  have hpos : ¬(convertQ 831000000 300 < 0) := by
    unfold convertQ
    norm_num
  have h1 : load_camels_us_discharge wFS "01013500" 831000000 =
      .ok [(⟨2000, 1, 1⟩, if convertQ 831000000 (-1) < 0 then none
              else some (convertQ 831000000 (-1))),
           (⟨2000, 1, 2⟩, if convertQ 831000000 300 < 0 then none
              else some (convertQ 831000000 300))] := rfl
  rw [h1, if_pos hneg, if_neg hpos]
  rfl

/-- Witness for C2 at `wFS`, basin `01013500`, area 831000000. -/
theorem camels_C2_negative_discharge_masked_witness :
    (0 : ℤ) < 831000000 ∧
    ∃ ix, attachDates dischargeYmd wDisFile.rows = .ok ix ∧
      ix.map Prod.snd = wDisFile.rows ∧
      wOut.map Prod.fst = ix.map Prod.fst ∧
      wOut.length = wDisFile.rows.length ∧
      wOut = ix.map (fun p =>
        (p.1, if p.2.QObs < 0 then none
              else some (convertQ 831000000 p.2.QObs))) :=
  ⟨by norm_num,
   camels_C2_negative_discharge_masked wFS "01013500" 831000000 wDisFile wOut
     (by norm_num) rfl wDischargeLoad⟩

/-- Witness for the amended C3 at `c3wfs`: the fully populated column keeps
int64 dtype and `huc_02 = 7` gives `huc = "07"`. -/
theorem camels_C3_huc_derivation_witness :
    ∃ p, p ∈ attrJoined c3wfs ∧
      c3wRow = hucDerive (hucColumnHasMissing (attrJoined c3wfs)) p ∧
      c3wRow.cells.lookup "huc" = some (Cell.txt (zfill
        (hucRender (hucColumnHasMissing (attrJoined c3wfs))
          (p.cells.lookup "huc_02")) 2)) ∧
      c3wRow.cells.lookup "huc_02" = none ∧
      2 ≤ (zfill (hucRender (hucColumnHasMissing (attrJoined c3wfs))
        (p.cells.lookup "huc_02")) 2).length ∧
      (∀ n : ℤ, hucColumnHasMissing (attrJoined c3wfs) = false →
        p.cells.lookup "huc_02" = some (Cell.num n) → 0 ≤ n → n < 100 →
        ∃ s, c3wRow.cells.lookup "huc" = some (Cell.txt s) ∧ s.length = 2) ∧
      (∀ n : ℤ, hucColumnHasMissing (attrJoined c3wfs) = true →
        p.cells.lookup "huc_02" = some (Cell.num n) → 0 ≤ n → n < 100 →
        ∃ s, c3wRow.cells.lookup "huc" = some (Cell.txt s) ∧ s.length ≠ 2) :=
  camels_C3_huc_derivation c3wfs [c3wRow] c3wRow rfl
    (List.mem_singleton.mpr rfl)

/-- Witness for C4 at `wFS`: an unknown basin raises the validation error;
a reordered pair of known basins comes back in the requested order. -/
theorem camels_C4_basin_filter_witness :
    (load_camels_us_attributes wFS ["99999999"] =
       .error (.valueError "Some basins are missing static attributes.") ∧
     ∀ t, load_camels_us_attributes wFS ["99999999"] ≠ .ok t) ∧
    (∃ t, load_camels_us_attributes wFS ["01031500", "01013500"] = .ok t ∧
       t.map (·.gauge_id) = ["01031500", "01013500"] ∧
       ∀ r ∈ t, r ∈ attrTable wFS) :=
  ⟨(camels_C4_basin_filter wFS ["99999999"] (by decide) rfl (by decide)).1
     (by decide),
   (camels_C4_basin_filter wFS ["01031500", "01013500"] (by decide) rfl
     (by decide)).2 (by decide) (by decide)⟩

/-- Witness for C5 at `wFS`: the returned area is the integer 831000000 on
the forcing file's third line. -/
theorem camels_C5_area_from_third_line_witness :
    readArea wForcingFile.text = .ok 831000000 ∧
    (831000000 : ℤ) = 831000000 :=
  ⟨(camels_C5_area_from_third_line wFS "01013500" "daymet" wForcingFile
      " latitude of gauge" " elevation of gauge" " 831000000"
      ["Year Mnth Day prcp"] 831000000 rfl rfl rfl).1,
   (camels_C5_area_from_third_line wFS "01013500" "daymet" wForcingFile
      " latitude of gauge" " elevation of gauge" " 831000000"
      ["Year Mnth Day prcp"] 831000000 rfl rfl rfl).2 wForcingOut 831000000
     rfl⟩

/-- Witness for C6 at `wFS`: both date indexes match the `Year`/`Mnth`/`Day`
columns row by row. -/
theorem camels_C6_date_index_witness :
    wForcingOut.map Prod.snd = wForcingFile.body ∧
    wForcingOut.map (fun p => toDatetime p.2.Year p.2.Mnth p.2.Day) =
      wForcingOut.map (fun p => Except.ok p.1) ∧
    ∃ ix, attachDates dischargeYmd wDisFile.rows = .ok ix ∧
      ix.map Prod.snd = wDisFile.rows ∧
      wOut.map Prod.fst = ix.map Prod.fst ∧
      wOut.length = wDisFile.rows.length ∧
      ix.map (fun p => toDatetime p.2.Year p.2.Mnth p.2.Day) =
        ix.map (fun p => Except.ok p.1) :=
  camels_C6_date_index wFS "01013500" "daymet" 831000000 wForcingFile
    wDisFile wForcingOut 831000000 wOut rfl rfl rfl wDischargeLoad

/-- Witness for C7: basin `09999999` has no file in `wFS`, and `wEmptyFS`
has no `usgs_streamflow` content at all; both give the same error. -/
theorem camels_C7_discharge_not_found_witness :
    load_camels_us_discharge wFS "09999999" 831000000 =
      .error (.fileNotFoundError ("No file for Basin " ++ "09999999" ++ " at []")) ∧
    load_camels_us_discharge wFS "09999999" 831000000 =
      load_camels_us_discharge wEmptyFS "09999999" 1 ∧
    ∀ ser, load_camels_us_discharge wFS "09999999" 831000000 ≠ .ok ser :=
  camels_C7_discharge_not_found wFS wEmptyFS "09999999" 831000000 1 rfl rfl

/-- Witness for C8: missing product directory, missing basin file, and the
first-match case, all at `wFS`. -/
theorem camels_C8_forcing_errors_witness :
    load_camels_us_forcings wFS "01013500" "nldas" =
      .error (.osError ("basin_mean_forcing/" ++ "nldas" ++ " does not exist")) ∧
    load_camels_us_forcings wFS "09999999" "daymet" =
      .error (.fileNotFoundError ("No file for Basin " ++ "09999999" ++ " at []")) ∧
    load_camels_us_forcings wFS "01013500" "daymet" =
      processForcingFile wForcingFile :=
  ⟨(camels_C8_forcing_errors wFS "01013500" "nldas").1 (by decide),
   (camels_C8_forcing_errors wFS "09999999" "daymet").2.1 (by decide) rfl,
   (camels_C8_forcing_errors wFS "01013500" "daymet").2.2 wForcingFile []
     (by decide) rfl⟩

/-- Witness for C9 at `wFS`: the empty filter returns the full two-basin
table. -/
theorem camels_C9_empty_filter_witness :
    load_camels_us_attributes wFS [] = .ok (attrTable wFS) ∧
    (attrTable wFS).map (·.gauge_id) =
      allGaugeIds ((camelsGlob wFS.attrFiles).map (·.rows)) ∧
    (attrTable wFS).length =
      (allGaugeIds ((camelsGlob wFS.attrFiles).map (·.rows))).length :=
  camels_C9_empty_filter wFS rfl (by decide)

/-- Witness for C10 at `wEmptyFS`: the attribute folder exists, no
`camels_*.txt` file matches, and the concat error is raised. -/
theorem camels_C10_no_attr_files_witness :
    load_camels_us_attributes wEmptyFS ["01013500"] =
      .error (.valueError "No objects to concatenate") ∧
    (∀ t, load_camels_us_attributes wEmptyFS ["01013500"] ≠ .ok t) ∧
    (∀ m, (Err.valueError "No objects to concatenate") ≠ .runtimeError m) ∧
    (∀ m, (Err.valueError "No objects to concatenate") ≠ .fileNotFoundError m) ∧
    (Err.valueError "No objects to concatenate") ≠
      .valueError "Some basins are missing static attributes." :=
  camels_C10_no_attr_files wEmptyFS ["01013500"] rfl rfl

end CamelsUS
